import Mathlib

/-!
# Lights Out (`Lights_out.c`)

A shallow embedding of the puzzle logic of `Lights_out.c`: the nine-cell
`state` array, the `house` character buffer, the toggle functions, the
win check and the game loop of `main`.

C `int` values are modelled as `Int` (no arithmetic in the program comes
near the 32-bit range).  The two arrays are modelled as lists; an access
whose index lies outside the array is undefined behaviour in C and is
modelled as the error result `Fault`, which records the offending index.
-/

namespace LightsOut

/-! ## Constants -/

def HOUSE_WIDTH : Nat := 69
def HOUSE_HEIGHT : Nat := 26
def WINDOW_WIDTH : Nat := 11
def WINDOW_HEIGHT : Nat := 3

/-! ## Memory accesses -/

deriving instance DecidableEq for Except

/-- An access outside one of the two arrays, with the index used. -/
inductive Fault where
  | state_index (i : Int)
  | house_index (i : Int)
  deriving DecidableEq, Repr

/-- The array read `a[i]`, for a C array `a` with `a.length` elements. -/
def load {α : Type} (oob : Int → Fault) (a : List α) (i : Int) : Except Fault α :=
  if 0 ≤ i then
    match a[i.toNat]? with
    | some v => Except.ok v
    | none => Except.error (oob i)
  else Except.error (oob i)

/-- The array write `a[i] = v`, for a C array `a` with `a.length` elements. -/
def store {α : Type} (oob : Int → Fault) (a : List α) (i : Int) (v : α) :
    Except Fault (List α) :=
  if 0 ≤ i ∧ i.toNat < a.length then Except.ok (a.set i.toNat v)
  else Except.error (oob i)

/-- The integers `lo, lo+1, ..., hi-1` a loop `for (i = lo; i < hi; i++)`
    runs through. -/
def loop_range (lo hi : Int) : List Int :=
  (List.range (hi - lo).toNat).map (fun (k : Nat) => lo + (k : Int))

/-! ## The functions of `Lights_out.c` -/

/-- Source lines 74-90: fill the interior of the window at `(x, y)`. -/
def window_update_graphics (house : List Char) (state : List Int) (x y : Int) :
    Except Fault (List Char) := do
  let s ← load Fault.state_index state (3*x+y)
  if s = 1 then
    (loop_range (9 + 2*y*3) (9 + 2*y*3 + 3)).foldlM (fun house i =>
      (loop_range (11 + x*18) (11 + x*18 + 11)).foldlM (fun house j =>
        store Fault.house_index house (69*(i - 1) + j) '#') house) house
  else
    (loop_range (9 + 2*y*3) (9 + 2*y*3 + 3)).foldlM (fun house i =>
      (loop_range (11 + x * 18) (11 + x * 18 + 11)).foldlM (fun house j =>
        store Fault.house_index house (69 * (i - 1) + j) ' ') house) house

/-- Source lines 110-118: toggle the cell of the window at `(x, y)`. -/
def window_toggle_state (state : List Int) (x y : Int) : Except Fault (List Int) := do
  let s ← load Fault.state_index state (3*y+x)
  if s = 1 then
    store Fault.state_index state (3*y+x) 0
  else
    store Fault.state_index state (3*y+x) 1

/-- Source lines 143-147. -/
def window_update (state : List Int) (house : List Char) (x y : Int) :
    Except Fault (List Int × List Char) := do
  let state ← window_toggle_state state x y
  let house ← window_update_graphics house state x y
  return (state, house)

/-- Source lines 178-267: nine `if` statements in sequence, one per window;
    each passes the arrays it leaves on to the next. -/
def window_toggle (state : List Int) (house : List Char) (choice : Int) :
    Except Fault (List Int × List Char) := do
  let y := Int.tdiv (choice - 1) 3
  let x := Int.tmod (choice - 1) 3
  let (state, house) ←
    (if x = 0 ∧ y = 0 then do
      let state ← window_toggle_state state x y
      let house ← window_update_graphics house state x y
      let state ← window_toggle_state state (x+1) y
      let house ← window_update_graphics house state (x+1) y
      let state ← window_toggle_state state x (y+1)
      let house ← window_update_graphics house state x (y+1)
      pure (state, house)
    else pure (state, house))
  let (state, house) ←
    (if x = 1 ∧ y = 0 then do
      let state ← window_toggle_state state x y
      let house ← window_update_graphics house state x y
      let state ← window_toggle_state state (x-1) y
      let house ← window_update_graphics house state (x-1) y
      let state ← window_toggle_state state (x+1) y
      let house ← window_update_graphics house state (x+1) y
      let state ← window_toggle_state state x (y+1)
      let house ← window_update_graphics house state x (y+1)
      pure (state, house)
    else pure (state, house))
  let (state, house) ←
    (if x = 2 ∧ y = 0 then do
      let state ← window_toggle_state state x y
      let house ← window_update_graphics house state x y
      let state ← window_toggle_state state (x-1) y
      let house ← window_update_graphics house state (x-1) y
      let state ← window_toggle_state state x (y+1)
      let house ← window_update_graphics house state x (y+1)
      pure (state, house)
    else pure (state, house))
  let (state, house) ←
    (if x = 0 ∧ y = 1 then do
      let state ← window_toggle_state state x y
      let house ← window_update_graphics house state x y
      let state ← window_toggle_state state (x+1) y
      let house ← window_update_graphics house state (x+1) y
      let state ← window_toggle_state state x (y+1)
      let house ← window_update_graphics house state x (y+1)
      let state ← window_toggle_state state x (y-1)
      let house ← window_update_graphics house state x (y-1)
      pure (state, house)
    else pure (state, house))
  let (state, house) ←
    (if x = 1 ∧ y = 1 then do
      let state ← window_toggle_state state x y
      let house ← window_update_graphics house state x y
      let state ← window_toggle_state state (x-1) y
      let house ← window_update_graphics house state (x-1) y
      let state ← window_toggle_state state (x+1) y
      let house ← window_update_graphics house state (x+1) y
      let state ← window_toggle_state state x (y+1)
      let house ← window_update_graphics house state x (y+1)
      let state ← window_toggle_state state x (y-1)
      let house ← window_update_graphics house state x (y-1)
      pure (state, house)
    else pure (state, house))
  let (state, house) ←
    (if x = 2 ∧ y = 1 then do
      let state ← window_toggle_state state x y
      let house ← window_update_graphics house state x y
      let state ← window_toggle_state state (x-1) y
      let house ← window_update_graphics house state (x-1) y
      let state ← window_toggle_state state x (y+1)
      let house ← window_update_graphics house state x (y+1)
      let state ← window_toggle_state state x (y-1)
      let house ← window_update_graphics house state x (y-1)
      pure (state, house)
    else pure (state, house))
  let (state, house) ←
    (if x = 0 ∧ y = 2 then do
      let state ← window_toggle_state state x y
      let house ← window_update_graphics house state x y
      let state ← window_toggle_state state (x+1) y
      let house ← window_update_graphics house state (x+1) y
      let state ← window_toggle_state state x (y-1)
      let house ← window_update_graphics house state x (y-1)
      pure (state, house)
    else pure (state, house))
  let (state, house) ←
    (if x = 1 ∧ y = 2 then do
      let state ← window_toggle_state state x y
      let house ← window_update_graphics house state x y
      let state ← window_toggle_state state (x+1) y
      let house ← window_update_graphics house state (x+1) y
      let state ← window_toggle_state state x (y-1)
      let house ← window_update_graphics house state x (y-1)
      let state ← window_toggle_state state (x-1) y
      let house ← window_update_graphics house state (x-1) y
      pure (state, house)
    else pure (state, house))
  let (state, house) ←
    (if x = 2 ∧ y = 2 then do
      let state ← window_toggle_state state x y
      let house ← window_update_graphics house state x y
      let state ← window_toggle_state state (x-1) y
      let house ← window_update_graphics house state (x-1) y
      let state ← window_toggle_state state x (y-1)
      let house ← window_update_graphics house state x (y-1)
      pure (state, house)
    else pure (state, house))
  return (state, house)

/-- The loop of `solved` from index `i` on, with `n` iterations left
    before `i <= 9` fails. -/
def solved_loop (state : List Int) : Nat → Int → Except Fault Int
  | 0, _ => Except.ok 1
  | n + 1, i => do
    let s ← load Fault.state_index state i
    if s = 0 then
      solved_loop state n (i + 1)
    else
      return 0

/-- Source lines 281-290: `for (int i = 0; i <= 9; i++)`, ten iterations. -/
def solved (state : List Int) : Except Fault Int :=
  solved_loop state 10 0

/-- Source lines 298-305: print the 26 rows of the house, a newline after
    each.  `out` lists what has been printed, one entry per `printf`. -/
def house_display (house : List Char) (out : List String) : Except Fault (List String) :=
  (loop_range 0 HOUSE_HEIGHT).foldlM (fun out y => do
    let out ← (loop_range 0 HOUSE_WIDTH).foldlM (fun out x => do
      let c ← load Fault.house_index house (HOUSE_WIDTH * y + x)
      pure (out ++ [String.singleton c])) out
    pure (out ++ ["\n"])) out

/-- Source lines 320-327: draw each of the nine windows. -/
def house_init (house : List Char) (state : List Int) : Except Fault (List Char) :=
  (loop_range 0 3).foldlM (fun house y =>
    (loop_range 0 3).foldlM (fun house x =>
      window_update_graphics house state x y) house) house

/-- The initial game state of `main` (source lines 366-368). -/
def initial_state : List Int :=
  [ 1, 1, 0,
    1, 1, 0,
    1, 0, 0 ]

/-- The `house` array of `main` (source lines 335-361): 26 rows of 69
    characters and the terminating NUL of the string literal. -/
def main_house : List Char :=
  String.toList (
    "                                             ______________          " ++
    "                                            |______________|         " ++
    "      _______________________________________|            |_____     " ++
    "     '                                       |____________|     `    " ++
    "    |                                                           |    " ++
    "    '-----------------------------------------------------------'    " ++
    "    |           1                 2                 3           |    " ++
    "    |     +-----------+     +-----------+     +-----------+     |    " ++
    "    |     |           |     |           |     |           |     |    " ++
    "    |     |           |     |           |     |           |     |    " ++
    "    |     |           |     |           |     |           |     |    " ++
    "    |     +-----------+     +-----------+     +-----------+     |    " ++
    "    |           4                 5                 6           |    " ++
    "    |     +-----------+     +-----------+     +-----------+     |    " ++
    "    |     |           |     |           |     |           |     |    " ++
    "    |     |           |     |           |     |           |     |    " ++
    "  _ |     |           |     |           |     |           |     |    " ++
    " |#||     +-----------+     +-----------+     +-----------+     |    " ++
    " |_||           7                 8                 9           |    " ++
    "  `-|     +-----------+     +-----------+     +-----------+     |    " ++
    "    -     |           |     |           |     |           |     |    " ++
    "    '     |           |     |           |     |           |     |    " ++
    "    '     |           |     |           |     |           |     |    " ++
    "   o'     +-----------+     +-----------+     +-----------+     |    " ++
    "    '                                                           |    " ++
    "____'___________________________________________________________'____") ++
  [Char.ofNat 0]

/-- What the program owns and the terminal: the two arrays of `main`, the
    keys still to be typed and what has been printed so far. -/
structure Game where
  state : List Int
  house : List Char
  input : List Int
  output : List String
  deriving DecidableEq, Repr

/-- How an iteration of the game loop ends: `Playing` goes round again,
    `Won` and `Quit` are the two `break`s. -/
inductive Phase where
  | Playing
  | Won
  | Quit
  deriving DecidableEq, Repr

/-- Source lines 29-47: the next key as a `char` value, and the newline
    printed after it.  With no key left `getchar` returns `EOF`, which the
    cast to `char` turns into `-1`.  The one-time terminal set-up
    (`tcgetattr`/`tcsetattr`) changes nothing the model holds. -/
def get_keypress (g : Game) : Int × Game :=
  match g.input with
  | [] => (-1, { g with output := g.output ++ ["\n"] })
  | c :: rest => (c, { g with input := rest, output := g.output ++ ["\n"] })

/-- Source lines 377-400: one iteration of `while (1)`. -/
def game_iteration (g : Game) : Except Fault (Phase × Game) := do
  let out ← house_display g.house g.output
  let g := { g with output := out }
  let won ← solved g.state
  if won ≠ 0 then
    return (Phase.Won, { g with output := g.output ++ ["Congratulations!  You won!\n"] })
  else
    let g := { g with output := g.output ++ ["Choose a Window (0 to exit): "] }
    let (choice, g) := get_keypress g
    if choice < ('0'.toNat : Int) ∨ choice > ('9'.toNat : Int) then
      return (Phase.Playing, { g with output := g.output ++ ["INVALID SELECTION!\n"] })
    else if choice = ('0'.toNat : Int) then
      return (Phase.Quit, g)
    else
      let choice := choice - ('0'.toNat : Int)
      let (state, house) ← window_toggle g.state g.house choice
      return (Phase.Playing, { g with state := state, house := house })

/-- The game loop, run for at most `fuel` iterations: the phase is
    `Playing` when the fuel ran out before a `break`. -/
def game_loop : Nat → Game → Except Fault (Phase × Game)
  | 0, g => Except.ok (Phase.Playing, g)
  | fuel + 1, g => do
    let (phase, g) ← game_iteration g
    match phase with
    | Phase.Playing => game_loop fuel g
    | _ => return (phase, g)

/-- Source lines 331-406: `main` on the keys `input`, for at most `fuel`
    iterations of the loop; "Goodbye!" is printed once the loop is left. -/
def main (fuel : Nat) (input : List Int) : Except Fault (Phase × Game) := do
  let house ← house_init main_house initial_state
  let (phase, g) ← game_loop fuel
    { state := initial_state, house := house, input := input, output := [] }
  match phase with
  | Phase.Playing => return (phase, g)
  | _ => return (phase, { g with output := g.output ++ ["Goodbye!\n"] })

/-! ## The rule of the specification -/

/-- Flipping a boolean cell: on becomes off, off becomes on. -/
def flip_cell (v : Int) : Int := 1 - v

/-- The five offsets of the neighbour rule: the cell itself, up, down,
    left, right. -/
def neighbour_offsets : List (Int × Int) :=
  [(0, 0), (-1, 0), (1, 0), (0, -1), (0, 1)]

/-- The indices `3*row + col` of the cells a selection toggles: the
    offsets applied to `(row, col)`, kept when inside the 3x3 grid. -/
def toggle_set (s : Int) : List Int :=
  let row := (s - 1) / 3
  let col := (s - 1) % 3
  ((neighbour_offsets.map (fun d => (row + d.1, col + d.2))).filter
    (fun p => decide (0 ≤ p.1 ∧ p.1 ≤ 2 ∧ 0 ≤ p.2 ∧ p.2 ≤ 2))).map
    (fun p => 3 * p.1 + p.2)

/-- The uniform neighbour rule: flip every cell of the toggle set, leave
    the others. -/
def apply_move (state : List Int) (s : Int) : List Int :=
  state.enum.map (fun p => if (p.1 : Int) ∈ toggle_set s then flip_cell p.2 else p.2)

/-- The calls of `window_toggle` the game loop makes for a sequence of
    selections, each on the arrays the call before left. -/
def play (state : List Int) (house : List Char) :
    List Int → Except Fault (List Int × List Char)
  | [] => Except.ok (state, house)
  | s :: rest => do
    let (state, house) ← window_toggle state house s
    play state house rest

/-- The number of positions at which two arrays differ. -/
def changed_cells (before after : List Int) : Nat :=
  ((before.zip after).filter (fun p => decide (p.1 ≠ p.2))).length

/-- The offsets in the buffer of the 33 characters of the interior of the
    window in column `x`, row `y` of the house picture: rows `8+6y .. 10+6y`,
    columns `11+18x .. 21+18x`, at offset `69*row + column`. -/
def window_offsets (x y : Nat) : List Nat :=
  (List.range WINDOW_HEIGHT).flatMap (fun r =>
    (List.range WINDOW_WIDTH).map (fun c =>
      HOUSE_WIDTH * (8 + 6*y + r) + (11 + 18*x + c)))

/-- The characters of the interior of the window in column `x`, row `y`. -/
def window_interior (house : List Char) (x y : Nat) : List (Option Char) :=
  (window_offsets x y).map (fun k => house[k]?)

/-- The character a window shows for a cell: `#` for 1, a blank for 0. -/
def glyph (cell : Option Int) : Char :=
  if cell = some 1 then '#' else ' '

/-- The display is a projection of the grid: for each window number `k` in
    1..9 (column `(k-1) % 3`, row `(k-1) / 3`) the interior is filled with
    the glyph of `state[k-1]`. -/
def shows_grid (house : List Char) (state : List Int) : Prop :=
  ∀ k : Nat, 1 ≤ k → k ≤ 9 →
    window_interior house ((k - 1) % 3) ((k - 1) / 3)
      = List.replicate (WINDOW_WIDTH * WINDOW_HEIGHT) (some (glyph state[k - 1]?))

/-! ## Proof devices -/

/-- Whether offset `k` of the buffer lies in the region `paint` writes for
    the window at `(x, y)`. -/
def in_window (x y : Int) (k : Nat) : Prop :=
  9 + 6*y ≤ (k / 69 : Nat) + 1 ∧ ((k / 69 : Nat) : Int) + 1 < 12 + 6*y ∧
    11 + 18*x ≤ ((k % 69 : Nat) : Int) ∧ ((k % 69 : Nat) : Int) < 22 + 18*x

instance (x y : Int) (k : Nat) : Decidable (in_window x y k) := by
  unfold in_window
  exact inferInstance

/-- For each selection 1..9, the cells whose lights decide (by their
    parity) whether the selection is part of the solution. -/
def solving_table : List (List Nat) :=
  [[0, 2, 5, 6, 7], [4, 6, 7, 8], [0, 2, 3, 7, 8], [2, 4, 5, 8], [1, 3, 4, 5, 7],
   [0, 3, 4, 6], [0, 1, 5, 6, 8], [0, 1, 2, 4], [1, 2, 3, 6, 8]]

/-- A solution of a 0/1 grid: the selections to make, each at most once. -/
def solve (state : List Int) : List Int :=
  (List.range 9).filterMap (fun s =>
    if ((solving_table.getD s []).map (fun j => state.getD j 0)).sum % 2 = 1
    then some ((s : Int) + 1) else none)

/-- The cell value of a light. -/
def bit (b : Bool) : Int := if b then 1 else 0

/-- The grid with every light off. -/
def all_off : List Int := [0, 0, 0, 0, 0, 0, 0, 0, 0]

/-- The state `window_toggle` leaves, whatever the cell values: a cell of
    the toggle set becomes 0 when it was 1 and becomes 1 otherwise. -/
def toggle_move (state : List Int) (s : Int) : List Int :=
  state.enum.map (fun p =>
    if (p.1 : Int) ∈ toggle_set s then (if p.2 = 1 then 0 else 1) else p.2)

/-- The entries `house_display` prints for a buffer that holds the whole
    house. -/
def frame_text (house : List Char) : List String :=
  (loop_range 0 HOUSE_HEIGHT).flatMap (fun y =>
    (loop_range 0 HOUSE_WIDTH).map (fun x =>
      String.singleton (house.getD (HOUSE_WIDTH * y + x).toNat ' ')) ++ ["\n"])

/-- The window interior written by `window_update_graphics`, as a pure
    function of the buffer. -/
def paint (house : List Char) (x y : Int) (c : Char) : List Char :=
  (loop_range (9 + 2*y*3) (9 + 2*y*3 + 3)).foldl (fun house i =>
    (loop_range (11 + x*18) (11 + x*18 + 11)).foldl (fun house j =>
      house.set (69*(i - 1) + j).toNat c) house) house

/-! ## Lemmas -/

@[simp] theorem ok_bind {ε α β : Type} (a : α) (f : α → Except ε β) :
    (Except.ok a >>= f) = f a := rfl

@[simp] theorem error_bind {ε α β : Type} (e : ε) (f : α → Except ε β) :
    (Except.error e >>= f) = Except.error e := rfl

@[simp] theorem pure_eq_ok {ε α : Type} (a : α) :
    (pure a : Except ε α) = Except.ok a := rfl

theorem mem_loop_range (lo hi i : Int) : i ∈ loop_range lo hi ↔ lo ≤ i ∧ i < hi := by
  simp only [loop_range, List.mem_map, List.mem_range]
  constructor
  · rintro ⟨k, hk, rfl⟩
    omega
  · intro h
    exact ⟨(i - lo).toNat, by omega, by omega⟩

theorem load_eq {α : Type} (oob : Int → Fault) (a : List α) (i : Int) (v : α)
    (h0 : 0 ≤ i) (hv : a[i.toNat]? = some v) : load oob a i = Except.ok v := by
  simp [load, h0, hv]

theorem store_eq {α : Type} (oob : Int → Fault) (a : List α) (i : Int) (v : α)
    (h0 : 0 ≤ i) (h1 : i.toNat < a.length) :
    store oob a i v = Except.ok (a.set i.toNat v) := by
  simp [store, h0, h1]

/-- A stepwise-successful monadic fold is the pure fold. -/
theorem foldlM_eq_foldl {α β : Type} (Inv : β → Prop) (g : β → α → Except Fault β)
    (g' : β → α → β) (l : List α)
    (hstep : ∀ b, Inv b → ∀ a ∈ l, g b a = Except.ok (g' b a) ∧ Inv (g' b a)) :
    ∀ b, Inv b → l.foldlM g b = Except.ok (l.foldl g' b) ∧ Inv (l.foldl g' b) := by
  induction l with
  | nil => intro b hb; exact ⟨rfl, hb⟩
  | cons a l ih =>
    intro b hb
    obtain ⟨h1, h2⟩ := hstep b hb a (List.mem_cons_self a l)
    have ih' := ih (fun b hb a ha => hstep b hb a (List.mem_cons_of_mem _ ha)) (g' b a) h2
    simp only [List.foldlM_cons, List.foldl_cons, h1, ok_bind]
    exact ih'

theorem paint_row_length (house : List Char) (l : List Int) (f : Int → Int) (c : Char) :
    (l.foldl (fun house j => house.set (f j).toNat c) house).length = house.length := by
  induction l generalizing house with
  | nil => rfl
  | cons a l ih => simp [List.foldl_cons, ih]

@[simp] theorem paint_length (house : List Char) (x y : Int) (c : Char) :
    (paint house x y c).length = house.length := by
  unfold paint
  generalize loop_range (9 + 2*y*3) (9 + 2*y*3 + 3) = rows
  induction rows generalizing house with
  | nil => rfl
  | cons a l ih => simp [List.foldl_cons, ih, paint_row_length]

/-- The two nested loops of `window_update_graphics` succeed on a buffer
    that holds the whole house, and write what `paint` writes. -/
theorem draw_loops_eq (house : List Char) (x y : Int) (c : Char)
    (hx : 0 ≤ x) (hx2 : x ≤ 2) (hy : 0 ≤ y) (hy2 : y ≤ 2)
    (hh : HOUSE_WIDTH * HOUSE_HEIGHT ≤ house.length) :
    (loop_range (9 + 2*y*3) (9 + 2*y*3 + 3)).foldlM (fun house i =>
      (loop_range (11 + x*18) (11 + x*18 + 11)).foldlM (fun house j =>
        store Fault.house_index house (69*(i - 1) + j) c) house) house
      = Except.ok (paint house x y c) := by
  have hh' : 1794 ≤ house.length := hh
  refine (foldlM_eq_foldl (fun b : List Char => b.length = house.length) _
    (fun house i => (loop_range (11 + x*18) (11 + x*18 + 11)).foldl (fun house j =>
      house.set (69*(i - 1) + j).toNat c) house) _ ?_ house rfl).1
  intro b hb i hi
  rw [mem_loop_range] at hi
  refine foldlM_eq_foldl (fun b : List Char => b.length = house.length) _
    (fun house j => house.set (69*(i - 1) + j).toNat c) _ ?_ b hb
  intro b' hb' j hj
  rw [mem_loop_range] at hj
  refine ⟨store_eq _ _ _ _ (by omega) (by omega), ?_⟩
  simp [hb']

theorem window_update_graphics_eq (house : List Char) (state : List Int) (x y : Int)
    (hx : 0 ≤ x) (hx2 : x ≤ 2) (hy : 0 ≤ y) (hy2 : y ≤ 2)
    (hs : 9 ≤ state.length) (hh : HOUSE_WIDTH * HOUSE_HEIGHT ≤ house.length) :
    window_update_graphics house state x y =
      Except.ok (paint house x y (if state[(3*x+y).toNat]? = some 1 then '#' else ' ')) := by
  have hlt : (3*x+y).toNat < state.length := by omega
  have hload : load Fault.state_index state (3*x+y) = Except.ok (state[(3*x+y).toNat]) :=
    load_eq _ _ _ _ (by omega) (List.getElem?_eq_getElem hlt)
  simp only [window_update_graphics, hload, ok_bind, List.getElem?_eq_getElem hlt,
    Option.some.injEq]
  split
  · exact draw_loops_eq house x y '#' hx hx2 hy hy2 hh
  · exact draw_loops_eq house x y ' ' hx hx2 hy hy2 hh

theorem window_toggle_state_eq (state : List Int) (x y : Int)
    (h0 : 0 ≤ 3*y+x) (h1 : (3*y+x).toNat < state.length) :
    window_toggle_state state x y =
      Except.ok (state.set (3*y+x).toNat
        (if state[(3*y+x).toNat]? = some 1 then 0 else 1)) := by
  have hload : load Fault.state_index state (3*y+x) = Except.ok (state[(3*y+x).toNat]) :=
    load_eq _ _ _ _ h0 (List.getElem?_eq_getElem h1)
  simp only [window_toggle_state, hload, ok_bind, List.getElem?_eq_getElem h1,
    Option.some.injEq]
  split
  · exact store_eq _ _ _ _ h0 h1
  · exact store_eq _ _ _ _ h0 h1

theorem getElem?_set_same (house : List Char) (n : Nat) (c : Char) :
    (house.set n c)[n]? = house[n]?.map (fun _ => c) := by
  by_cases h : n < house.length
  · simp [List.getElem?_set, h]
  · simp [List.getElem?_set, h, List.getElem?_eq_none (not_lt.1 h)]

/-- Reading a buffer after a run of writes of the same character. -/
theorem set_fold_getElem? (house : List Char) (l : List Int) (f : Int → Int) (c : Char)
    (k : Nat) :
    ((∃ j ∈ l, (f j).toNat = k) →
      (l.foldl (fun h j => h.set (f j).toNat c) house)[k]? = house[k]?.map (fun _ => c)) ∧
    ((¬ ∃ j ∈ l, (f j).toNat = k) →
      (l.foldl (fun h j => h.set (f j).toNat c) house)[k]? = house[k]?) := by
  induction l generalizing house with
  | nil => simp
  | cons a l ih =>
    obtain ⟨ih1, ih2⟩ := ih (house.set (f a).toNat c)
    simp only [List.foldl_cons]
    by_cases ha : (f a).toNat = k
    · have hset : (house.set (f a).toNat c)[k]? = house[k]?.map (fun _ => c) := by
        rw [← ha]; exact getElem?_set_same house _ c
      refine ⟨fun _ => ?_, fun hn => absurd ⟨a, List.mem_cons_self a l, ha⟩ hn⟩
      by_cases hl : ∃ j ∈ l, (f j).toNat = k
      · rw [ih1 hl, hset]
        cases house[k]? <;> rfl
      · rw [ih2 hl, hset]
    · have hset : (house.set (f a).toNat c)[k]? = house[k]? := by
        rw [List.getElem?_set]; simp [ha]
      by_cases hl : ∃ j ∈ l, (f j).toNat = k
      · refine ⟨fun _ => ?_, fun hn => ?_⟩
        · rw [ih1 hl, hset]
        · exact absurd (hl.imp fun j hj => ⟨List.mem_cons_of_mem _ hj.1, hj.2⟩) hn
      · refine ⟨fun h => ?_, fun _ => ?_⟩
        · obtain ⟨j, hj, hjk⟩ := h
          rcases List.mem_cons.1 hj with rfl | hj'
          · exact absurd hjk ha
          · exact absurd ⟨j, hj', hjk⟩ hl
        · rw [ih2 hl, hset]

/-- The same for the two nested loops of `paint`. -/
theorem set_fold2_getElem? (house : List Char) (rows cols : List Int) (f : Int → Int → Int)
    (c : Char) (k : Nat) :
    ((∃ i ∈ rows, ∃ j ∈ cols, (f i j).toNat = k) →
      (rows.foldl (fun h i => cols.foldl (fun h j => h.set (f i j).toNat c) h) house)[k]?
        = house[k]?.map (fun _ => c)) ∧
    ((¬ ∃ i ∈ rows, ∃ j ∈ cols, (f i j).toNat = k) →
      (rows.foldl (fun h i => cols.foldl (fun h j => h.set (f i j).toNat c) h) house)[k]?
        = house[k]?) := by
  induction rows generalizing house with
  | nil => simp
  | cons a l ih =>
    obtain ⟨ih1, ih2⟩ := ih (cols.foldl (fun h j => h.set (f a j).toNat c) house)
    obtain ⟨r1, r2⟩ := set_fold_getElem? house cols (f a) c k
    simp only [List.foldl_cons]
    by_cases ha : ∃ j ∈ cols, (f a j).toNat = k
    · refine ⟨fun _ => ?_, fun hn => absurd ⟨a, List.mem_cons_self a l, ha⟩ hn⟩
      by_cases hl : ∃ i ∈ l, ∃ j ∈ cols, (f i j).toNat = k
      · rw [ih1 hl, r1 ha]
        cases house[k]? <;> rfl
      · rw [ih2 hl, r1 ha]
    · by_cases hl : ∃ i ∈ l, ∃ j ∈ cols, (f i j).toNat = k
      · refine ⟨fun _ => ?_, fun hn => ?_⟩
        · rw [ih1 hl, r2 ha]
        · exact absurd (hl.imp fun i hi => ⟨List.mem_cons_of_mem _ hi.1, hi.2⟩) hn
      · refine ⟨fun h => ?_, fun _ => ?_⟩
        · obtain ⟨i, hi, hik⟩ := h
          rcases List.mem_cons.1 hi with rfl | hi'
          · exact absurd hik ha
          · exact absurd ⟨i, hi', hik⟩ hl
        · rw [ih2 hl, r2 ha]

/-- What `paint` leaves at offset `k`: the new character inside the window
    region, the old one elsewhere. -/
theorem paint_getElem? (house : List Char) (x y : Int) (c : Char) (k : Nat)
    (hx : 0 ≤ x) (hx2 : x ≤ 2) (hy : 0 ≤ y) :
    (paint house x y c)[k]? =
      if in_window x y k then house[k]?.map (fun _ => c) else house[k]? := by
  obtain ⟨p1, p2⟩ := set_fold2_getElem? house (loop_range (9 + 2*y*3) (9 + 2*y*3 + 3))
    (loop_range (11 + x*18) (11 + x*18 + 11)) (fun i j => 69*(i - 1) + j) c k
  have key : (∃ i ∈ loop_range (9 + 2*y*3) (9 + 2*y*3 + 3),
      ∃ j ∈ loop_range (11 + x*18) (11 + x*18 + 11), (69*(i - 1) + j).toNat = k) ↔
      in_window x y k := by
    simp only [mem_loop_range, in_window]
    constructor
    · rintro ⟨i, hi, j, hj, rfl⟩
      omega
    · intro h
      exact ⟨(k / 69 : Nat) + 1, by omega, (k % 69 : Nat), by omega, by omega⟩
  unfold paint
  by_cases hk : in_window x y k
  · rw [if_pos hk]; exact p1 (key.2 hk)
  · rw [if_neg hk]; exact p2 (fun h => hk (key.1 h))

theorem toggle_flip (v : Int) (h : v = 0 ∨ v = 1) :
    (if v = 1 then (0 : Int) else 1) = flip_cell v := by
  rcases h with rfl | rfl <;> decide

theorem length_nine {α : Type} (l : List α) (h : l.length = 9) :
    ∃ a b c d e f g h k, l = [a, b, c, d, e, f, g, h, k] := by
  match l, h with
  | [a, b, c, d, e, f, g, h, k], _ => exact ⟨a, b, c, d, e, f, g, h, k, rfl⟩

theorem toggle_set_values :
    toggle_set 1 = [0, 3, 1] ∧ toggle_set 2 = [1, 4, 0, 2] ∧ toggle_set 3 = [2, 5, 1] ∧
    toggle_set 4 = [3, 0, 6, 4] ∧ toggle_set 5 = [4, 1, 7, 3, 5] ∧
    toggle_set 6 = [5, 2, 8, 4] ∧ toggle_set 7 = [6, 3, 7] ∧
    toggle_set 8 = [7, 4, 6, 8] ∧ toggle_set 9 = [8, 5, 7] := by
  decide

set_option maxHeartbeats 4000000 in
/-- On an array of nine cells and a buffer holding the whole house,
    `window_toggle` makes no access outside the arrays: it succeeds, leaves
    the state `toggle_move` and a buffer of the same length. -/
theorem window_toggle_any (state : List Int) (house : List Char) (s : Int)
    (hlen : state.length = 9)
    (hh : HOUSE_WIDTH * HOUSE_HEIGHT ≤ house.length) (h1 : 1 ≤ s) (h9 : s ≤ 9) :
    ∃ house', window_toggle state house s = Except.ok (toggle_move state s, house') ∧
      house'.length = house.length := by
  obtain ⟨a, b, c, d, e, f, g, h, k, rfl⟩ := length_nine state hlen
  obtain ⟨t1, t2, t3, t4, t5, t6, t7, t8, t9⟩ := toggle_set_values
  interval_cases s
  all_goals
    simp [window_toggle, Int.tdiv_eq_ediv, Int.tmod_eq_emod, window_toggle_state_eq,
      window_update_graphics_eq, hh]
    simp [toggle_move, List.enum, List.enumFrom, t1, t2, t3, t4, t5, t6, t7, t8, t9]

theorem toggle_move_getElem? (state : List Int) (s : Int) (i : Nat) :
    (toggle_move state s)[i]? =
      state[i]?.map (fun v =>
        if (i : Int) ∈ toggle_set s then (if v = 1 then 0 else 1) else v) := by
  simp only [toggle_move, List.getElem?_map, List.getElem?_enum]
  cases state[i]? <;> simp

theorem toggle_move_length (state : List Int) (s : Int) :
    (toggle_move state s).length = state.length := by
  simp [toggle_move]

theorem apply_move_getElem? (state : List Int) (s : Int) (i : Nat) :
    (apply_move state s)[i]? =
      state[i]?.map (fun v => if (i : Int) ∈ toggle_set s then flip_cell v else v) := by
  simp only [apply_move, List.getElem?_map, List.getElem?_enum]
  cases state[i]? <;> simp

/-- On a grid of nine 0/1 cells and a buffer holding the whole house,
    `window_toggle` succeeds, its state is the one of the neighbour rule and
    the buffer keeps its length. -/
theorem window_toggle_spec (state : List Int) (house : List Char) (s : Int)
    (hlen : state.length = 9) (hbit : ∀ v ∈ state, v = 0 ∨ v = 1)
    (hh : HOUSE_WIDTH * HOUSE_HEIGHT ≤ house.length) (h1 : 1 ≤ s) (h9 : s ≤ 9) :
    ∃ house', window_toggle state house s = Except.ok (apply_move state s, house') ∧
      house'.length = house.length := by
  have hmove : toggle_move state s = apply_move state s := by
    apply List.ext_getElem?
    intro i
    rw [toggle_move_getElem?, apply_move_getElem?]
    by_cases hi : i < state.length
    · rw [List.getElem?_eq_getElem hi]
      simp only [Option.map_some', Option.some.injEq]
      rw [toggle_flip _ (hbit _ (List.getElem_mem hi))]
    · rw [List.getElem?_eq_none (not_lt.1 hi)]
      rfl
  rw [← hmove]
  exact window_toggle_any state house s hlen hh h1 h9

theorem apply_move_length (state : List Int) (s : Int) :
    (apply_move state s).length = state.length := by
  simp [apply_move]

theorem apply_move_bits (state : List Int) (s : Int) (hbit : ∀ v ∈ state, v = 0 ∨ v = 1) :
    ∀ v ∈ apply_move state s, v = 0 ∨ v = 1 := by
  intro v hv
  obtain ⟨i, hi, rfl⟩ := List.getElem_of_mem hv
  have hi' : i < state.length := by rwa [apply_move_length] at hi
  have h := apply_move_getElem? state s i
  rw [List.getElem?_eq_getElem hi, List.getElem?_eq_getElem hi'] at h
  simp only [Option.map_some', Option.some.injEq] at h
  rw [h]
  have hb := hbit _ (List.getElem_mem hi')
  split
  · rcases hb with hb | hb <;> simp [flip_cell, hb]
  · exact hb

theorem apply_move_twice (state : List Int) (s : Int) :
    apply_move (apply_move state s) s = state := by
  apply List.ext_getElem?
  intro i
  rw [apply_move_getElem?, apply_move_getElem?]
  cases state[i]? with
  | none => rfl
  | some v =>
    simp only [Option.map_some', Option.some.injEq]
    split <;> simp [flip_cell]

theorem flip_cell_ne (v : Int) : ¬ v = flip_cell v := by
  unfold flip_cell
  omega

theorem changed_cells_apply_move (state : List Int) (s : Int) (hlen : state.length = 9)
    (h1 : 1 ≤ s) (h9 : s ≤ 9) :
    changed_cells state (apply_move state s) =
      if s = 1 ∨ s = 3 ∨ s = 7 ∨ s = 9 then 3
      else if s = 2 ∨ s = 4 ∨ s = 6 ∨ s = 8 then 4 else 5 := by
  obtain ⟨a, b, c, d, e, f, g, h, k, rfl⟩ := length_nine state hlen
  obtain ⟨t1, t2, t3, t4, t5, t6, t7, t8, t9⟩ := toggle_set_values
  interval_cases s
  all_goals
    simp [changed_cells, apply_move, List.enum, List.enumFrom, t1, t2, t3, t4, t5, t6, t7,
      t8, t9, flip_cell_ne, List.filter]

theorem mem_window_offsets (x y k : Nat) :
    k ∈ window_offsets x y ↔ ∃ r < 3, ∃ c < 11, 69 * (8 + 6*y + r) + (11 + 18*x + c) = k := by
  simp [window_offsets, List.mem_flatMap, List.mem_map, List.mem_range, WINDOW_HEIGHT,
    WINDOW_WIDTH, HOUSE_WIDTH]

theorem window_offsets_length (x y : Nat) : (window_offsets x y).length = 33 := by
  simp [window_offsets, List.length_flatMap, WINDOW_HEIGHT, WINDOW_WIDTH, Function.comp_def]

/-- After `paint` the window it was called for is filled with the
    character. -/
theorem paint_window_interior (house : List Char) (x y : Int) (xn yn : Nat) (c : Char)
    (hx : x = xn) (hy : y = yn) (hx2 : xn ≤ 2) (hy2 : yn ≤ 2)
    (hh : HOUSE_WIDTH * HOUSE_HEIGHT ≤ house.length) :
    window_interior (paint house x y c) xn yn = List.replicate 33 (some c) := by
  have hh' : 1794 ≤ house.length := hh
  rw [← window_offsets_length xn yn, ← List.map_const', window_interior]
  apply List.map_congr_left
  intro k hk
  obtain ⟨r, hr, c', hc', rfl⟩ := (mem_window_offsets xn yn k).1 hk
  rw [paint_getElem? house x y c _ (by omega) (by omega) (by omega), if_pos]
  · rw [List.getElem?_eq_getElem (by omega)]
    rfl
  · unfold in_window
    omega

/-- The other windows keep what they showed. -/
theorem paint_window_interior_other (house : List Char) (x y : Int) (xn yn : Nat) (c : Char)
    (hx : 0 ≤ x) (hx2 : x ≤ 2) (hy : 0 ≤ y) (hxn : xn ≤ 2)
    (hne : x ≠ xn ∨ y ≠ yn) :
    window_interior (paint house x y c) xn yn = window_interior house xn yn := by
  unfold window_interior
  apply List.map_congr_left
  intro k hk
  obtain ⟨r, hr, c', hc', rfl⟩ := (mem_window_offsets xn yn k).1 hk
  rw [paint_getElem? house x y c _ hx hx2 hy, if_neg]
  have hdiv : (69 * (8 + 6*yn + r) + (11 + 18*xn + c')) / 69 = 8 + 6*yn + r := by omega
  have hmod : (69 * (8 + 6*yn + r) + (11 + 18*xn + c')) % 69 = 11 + 18*xn + c' := by omega
  unfold in_window
  rw [hdiv, hmod]
  omega

/-- What `window_update_graphics` does draw: the window in column `x`, row
    `y` is filled with the glyph of the cell `state[3*x + y]`. -/
theorem window_update_graphics_interior (house : List Char) (state : List Int)
    (x y : Int) (xn yn : Nat) (hx : x = xn) (hy : y = yn) (hx2 : xn ≤ 2) (hy2 : yn ≤ 2)
    (hs : 9 ≤ state.length) (hh : HOUSE_WIDTH * HOUSE_HEIGHT ≤ house.length) :
    ∃ house', window_update_graphics house state x y = Except.ok house' ∧
      house'.length = house.length ∧
      window_interior house' xn yn = List.replicate 33 (some (glyph state[3*xn + yn]?)) := by
  refine ⟨_, window_update_graphics_eq house state x y (by omega) (by omega) (by omega)
    (by omega) hs hh, paint_length _ _ _ _, ?_⟩
  rw [paint_window_interior house x y xn yn _ hx hy hx2 hy2 hh]
  have : (3*x + y).toNat = 3*xn + yn := by omega
  rw [this]
  rfl

theorem loop_range_three : loop_range 0 3 = [0, 1, 2] := by decide

/-- The nine calls of `house_init`, in the order of its two loops. -/
theorem house_init_eq (house : List Char) (state : List Int)
    (hs : 9 ≤ state.length) (hh : HOUSE_WIDTH * HOUSE_HEIGHT ≤ house.length) :
    house_init house state = Except.ok
      (paint (paint (paint (paint (paint (paint (paint (paint (paint house
        0 0 (glyph state[0]?)) 1 0 (glyph state[3]?)) 2 0 (glyph state[6]?))
        0 1 (glyph state[1]?)) 1 1 (glyph state[4]?)) 2 1 (glyph state[7]?))
        0 2 (glyph state[2]?)) 1 2 (glyph state[5]?)) 2 2 (glyph state[8]?)) := by
  simp [house_init, loop_range_three, window_update_graphics_eq, hh, hs, glyph]

set_option maxRecDepth 100000 in
theorem main_house_length : HOUSE_WIDTH * HOUSE_HEIGHT ≤ main_house.length := by
  decide

/-- What `house_init` does draw: the window in column `xn`, row `yn` shows
    the glyph of the cell `state[3*xn + yn]`. -/
theorem house_init_interior (house : List Char) (state : List Int) (xn yn : Nat)
    (hx2 : xn ≤ 2) (hy2 : yn ≤ 2)
    (hs : 9 ≤ state.length) (hh : HOUSE_WIDTH * HOUSE_HEIGHT ≤ house.length) :
    ∃ house', house_init house state = Except.ok house' ∧
      house'.length = house.length ∧
      window_interior house' xn yn = List.replicate 33 (some (glyph state[3*xn + yn]?)) := by
  refine ⟨_, house_init_eq house state hs hh, by simp, ?_⟩
  interval_cases xn <;> interval_cases yn <;>
    simp [paint_window_interior_other, paint_window_interior, hh]

theorem foldl_append_singleton {α β : Type} (l : List α) (f : α → β) (out : List β) :
    l.foldl (fun out a => out ++ [f a]) out = out ++ l.map f := by
  induction l generalizing out with
  | nil => simp
  | cons a l ih => simp [ih]

theorem foldl_append_flatMap {α β : Type} (l : List α) (g : α → List β) (out : List β) :
    l.foldl (fun out a => out ++ g a) out = out ++ l.flatMap g := by
  induction l generalizing out with
  | nil => simp
  | cons a l ih => simp [ih]

/-- On a buffer that holds the whole house `house_display` reads inside the
    buffer and prints `frame_text`. -/
theorem house_display_eq (house : List Char) (out : List String)
    (hh : HOUSE_WIDTH * HOUSE_HEIGHT ≤ house.length) :
    house_display house out = Except.ok (out ++ frame_text house) := by
  have hh' : 1794 ≤ house.length := hh
  have h := (foldlM_eq_foldl (fun _ : List String => True)
    (fun out y => do
      let out ← (loop_range 0 HOUSE_WIDTH).foldlM (fun out x => do
        let c ← load Fault.house_index house (HOUSE_WIDTH * y + x)
        pure (out ++ [String.singleton c])) out
      pure (out ++ ["\n"]))
    (fun out y => out ++ ((loop_range 0 HOUSE_WIDTH).map (fun x =>
      String.singleton (house.getD (HOUSE_WIDTH * y + x).toNat ' ')) ++ ["\n"]))
    (loop_range 0 HOUSE_HEIGHT) ?_ out trivial).1
  · rw [house_display, h, foldl_append_flatMap]
    rfl
  · intro b _ y hy
    rw [mem_loop_range] at hy
    have hin := (foldlM_eq_foldl (fun _ : List String => True)
      (fun out x => do
        let c ← load Fault.house_index house (HOUSE_WIDTH * y + x)
        pure (out ++ [String.singleton c]))
      (fun out x => out ++ [String.singleton (house.getD (HOUSE_WIDTH * y + x).toNat ' ')])
      (loop_range 0 HOUSE_WIDTH) ?_ b trivial).1
    · refine ⟨?_, trivial⟩
      dsimp only
      rw [hin]
      simp only [ok_bind, pure_eq_ok, foldl_append_singleton, List.append_assoc]
    · intro b' _ x hx
      rw [mem_loop_range] at hx
      simp only [HOUSE_WIDTH, HOUSE_HEIGHT, Nat.cast_ofNat] at hx hy ⊢
      have hlt : (69 * y + x).toNat < house.length := by omega
      refine ⟨?_, trivial⟩
      rw [load_eq Fault.house_index house (69 * y + x) (house.getD (69 * y + x).toNat ' ')
        (by omega) (by simp [List.getD, List.getElem?_eq_getElem hlt])]
      rfl

/-- The win check returns 0 on a grid of nine cells one of which is not 0. -/
theorem solved_not_all_off (state : List Int) (hlen : state.length = 9)
    (hon : ∃ v ∈ state, v ≠ 0) : solved state = Except.ok 0 := by
  obtain ⟨a, b, c, d, e, f, g, h, k, rfl⟩ := length_nine state hlen
  simp only [List.mem_cons, List.mem_singleton, List.not_mem_nil, or_false] at hon
  obtain ⟨v, hv, hv0⟩ := hon
  simp only [solved, solved_loop, load]
  simp
  intros
  omega

theorem invalid_not_in_frame (house : List Char) :
    "INVALID SELECTION!\n" ∉ frame_text house := by
  intro h
  simp only [frame_text, List.mem_flatMap, List.mem_append, List.mem_map,
    List.mem_singleton] at h
  obtain ⟨y, _, h | h⟩ := h
  · obtain ⟨x, _, hx⟩ := h
    have hlen := congrArg String.length hx
    rw [show ∀ c : Char, (String.singleton c).length = 1 from fun _ => rfl] at hlen
    revert hlen
    decide
  · revert h
    decide

/-- An iteration on an unsolved grid whose key is outside `'0'..'9'`. -/
theorem game_iteration_invalid (g : Game)
    (hlen : g.state.length = 9) (hon : ∃ v ∈ g.state, v ≠ 0)
    (hh : HOUSE_WIDTH * HOUSE_HEIGHT ≤ g.house.length)
    (hkey : (get_keypress g).1 < ('0'.toNat : Int) ∨ (get_keypress g).1 > ('9'.toNat : Int)) :
    game_iteration g = Except.ok (Phase.Playing,
      { g with input := g.input.tail,
               output := g.output ++ frame_text g.house ++
                 ["Choose a Window (0 to exit): ", "\n", "INVALID SELECTION!\n"] }) := by
  cases hin : g.input with
  | nil =>
    simp [game_iteration, house_display_eq g.house g.output hh,
      solved_not_all_off g.state hlen hon, get_keypress, hin]
  | cons c rest =>
    have hc : c < 48 ∨ 57 < c := by simpa [get_keypress, hin] using hkey
    simp [game_iteration, house_display_eq g.house g.output hh,
      solved_not_all_off g.state hlen hon, get_keypress, hin, hc]

/-- An iteration on an unsolved grid whose key is one of `'1'..'9'`: the
    only thing that can fail is the call of `window_toggle`. -/
theorem game_iteration_digit (g : Game) (c : Int) (rest : List Int)
    (hlen : g.state.length = 9) (hon : ∃ v ∈ g.state, v ≠ 0)
    (hh : HOUSE_WIDTH * HOUSE_HEIGHT ≤ g.house.length)
    (hkey : g.input = c :: rest) (h1 : ('1'.toNat : Int) ≤ c) (h9 : c ≤ ('9'.toNat : Int)) :
    game_iteration g = (window_toggle g.state g.house (c - ('0'.toNat : Int))).map
      (fun p => (Phase.Playing,
        { state := p.1, house := p.2, input := rest,
          output := g.output ++ frame_text g.house ++
            ["Choose a Window (0 to exit): ", "\n"] })) := by
  have h1' : (49 : Int) ≤ c := h1
  have h9' : c ≤ (57 : Int) := h9
  have hc : ¬ (c < 48 ∨ 57 < c) := by omega
  have hc0 : ¬ c = 48 := by omega
  simp [game_iteration, house_display_eq g.house g.output hh,
    solved_not_all_off g.state hlen hon, get_keypress, hkey, hc, hc0]
  cases window_toggle g.state g.house (c - 48) <;> rfl

theorem solved_all_zero (state : List Int) (hlen : state.length = 9)
    (hz : ∀ v ∈ state, v = 0) : solved state = Except.error (Fault.state_index 9) := by
  obtain ⟨a, b, c, d, e, f, g, h, k, rfl⟩ := length_nine state hlen
  simp only [List.mem_cons, List.mem_singleton, List.not_mem_nil, or_false,
    forall_eq_or_imp, forall_eq] at hz
  obtain ⟨rfl, rfl, rfl, rfl, rfl, rfl, rfl, rfl, rfl⟩ := hz
  decide

/-- The loop of `solved` returns 0 at the first cell that is not 0; cells
    after it play no part. -/
theorem solved_loop_first_on (state : List Int) (i : Nat) (v : Int)
    (hv : state[i]? = some v) (hv0 : v ≠ 0) :
    ∀ (n k : Nat), k ≤ i → i < k + n → (∀ j, k ≤ j → j < i → state[j]? = some 0) →
      solved_loop state n (k : Int) = Except.ok 0 := by
  intro n
  induction n with
  | zero => intro k h1 h2; omega
  | succ n ih =>
    intro k h1 h2 hz
    by_cases hk : k = i
    · subst hk
      simp [solved_loop, load, hv, hv0]
    · have hk0 := hz k (le_refl k) (by omega)
      have := ih (k + 1) (by omega) (by omega) (fun j hj1 hj2 => hz j (by omega) hj2)
      simp only [Nat.cast_add, Nat.cast_one] at this
      simp [solved_loop, load, hk0, this]

/-- An iteration on the all-off grid: the win check reads `state[9]`. -/
theorem game_iteration_all_off (g : Game)
    (hlen : g.state.length = 9) (hz : ∀ v ∈ g.state, v = 0)
    (hh : HOUSE_WIDTH * HOUSE_HEIGHT ≤ g.house.length) :
    game_iteration g = Except.error (Fault.state_index 9) := by
  simp [game_iteration, house_display_eq g.house g.output hh,
    solved_all_zero g.state hlen hz]

/-- One round of the loop on an unsolved 0/1 grid and a digit key `1..9`:
    the loop goes on from the grid of the neighbour rule. -/
theorem game_loop_digit_step (state : List Int) (house : List Char) (c : Int)
    (rest : List Int) (out : List String) (fuel : Nat)
    (hlen : state.length = 9) (hbit : ∀ v ∈ state, v = 0 ∨ v = 1)
    (hon : ∃ v ∈ state, v ≠ 0)
    (hh : HOUSE_WIDTH * HOUSE_HEIGHT ≤ house.length)
    (h1 : ('1'.toNat : Int) ≤ c) (h9 : c ≤ ('9'.toNat : Int)) :
    ∃ house', HOUSE_WIDTH * HOUSE_HEIGHT ≤ house'.length ∧
      game_loop (fuel + 1) ⟨state, house, c :: rest, out⟩ = game_loop fuel
        ⟨apply_move state (c - 48), house', rest,
          out ++ frame_text house ++ ["Choose a Window (0 to exit): ", "\n"]⟩ := by
  have h1' : (49 : Int) ≤ c := h1
  have h9' : c ≤ (57 : Int) := h9
  obtain ⟨house', hw, hl⟩ := window_toggle_spec state house (c - 48) hlen hbit hh
    (by omega) (by omega)
  refine ⟨house', by rw [hl]; exact hh, ?_⟩
  have hit := game_iteration_digit ⟨state, house, c :: rest, out⟩ c rest hlen hon hh rfl h1 h9
  rw [show (('0'.toNat : Nat) : Int) = 48 from rfl] at hit
  simp only [] at hit
  rw [hw] at hit
  simp [game_loop, hit, Except.map]

theorem mem_window_offsets_iff (x y : Int) (k : Nat) (hx : 0 ≤ x) (hx2 : x ≤ 2)
    (hy : 0 ≤ y) : k ∈ window_offsets x.toNat y.toNat ↔ in_window x y k := by
  rw [mem_window_offsets]
  unfold in_window
  constructor
  · rintro ⟨r, hr, c, hc, rfl⟩
    have hdiv : (69 * (8 + 6*y.toNat + r) + (11 + 18*x.toNat + c)) / 69
        = 8 + 6*y.toNat + r := by omega
    have hmod : (69 * (8 + 6*y.toNat + r) + (11 + 18*x.toNat + c)) % 69
        = 11 + 18*x.toNat + c := by omega
    rw [hdiv, hmod]
    omega
  · intro h
    refine ⟨k / 69 - 8 - 6*y.toNat, by omega, k % 69 - 11 - 18*x.toNat, by omega, ?_⟩
    omega

theorem window_offsets_nodup (x y : Nat) (hx : x ≤ 2) (hy : y ≤ 2) :
    (window_offsets x y).Nodup := by
  interval_cases x <;> interval_cases y <;> decide

set_option maxRecDepth 100000 in
set_option maxHeartbeats 4000000 in
theorem solve_bits : ∀ a b c d e f g h k : Bool,
    (solve [bit a, bit b, bit c, bit d, bit e, bit f, bit g, bit h, bit k]).foldl apply_move
      [bit a, bit b, bit c, bit d, bit e, bit f, bit g, bit h, bit k] = all_off := by
  decide

theorem solve_length (state : List Int) : (solve state).length ≤ 9 := by
  unfold solve
  exact (List.length_filterMap_le _ _).trans (by simp)

theorem solve_range (state : List Int) : ∀ m ∈ solve state, 1 ≤ m ∧ m ≤ 9 := by
  intro m hm
  simp only [solve, List.mem_filterMap, List.mem_range] at hm
  obtain ⟨s, hs, hm⟩ := hm
  split at hm
  · simp only [Option.some.injEq] at hm
    omega
  · exact absurd hm (by simp)

theorem bit_of_cell (v : Int) (h : v = 0 ∨ v = 1) : ∃ b : Bool, v = bit b := by
  rcases h with rfl | rfl
  · exact ⟨false, rfl⟩
  · exact ⟨true, rfl⟩

/-- The selections `solve` gives turn every light of a 0/1 grid off. -/
theorem solve_correct (state : List Int) (hlen : state.length = 9)
    (hbit : ∀ v ∈ state, v = 0 ∨ v = 1) :
    (solve state).foldl apply_move state = all_off := by
  obtain ⟨a, b, c, d, e, f, g, h, k, rfl⟩ := length_nine state hlen
  obtain ⟨a, rfl⟩ := bit_of_cell a (hbit a (by simp))
  obtain ⟨b, rfl⟩ := bit_of_cell b (hbit b (by simp))
  obtain ⟨c, rfl⟩ := bit_of_cell c (hbit c (by simp))
  obtain ⟨d, rfl⟩ := bit_of_cell d (hbit d (by simp))
  obtain ⟨e, rfl⟩ := bit_of_cell e (hbit e (by simp))
  obtain ⟨f, rfl⟩ := bit_of_cell f (hbit f (by simp))
  obtain ⟨g, rfl⟩ := bit_of_cell g (hbit g (by simp))
  obtain ⟨h, rfl⟩ := bit_of_cell h (hbit h (by simp))
  obtain ⟨k, rfl⟩ := bit_of_cell k (hbit k (by simp))
  exact solve_bits a b c d e f g h k

/-- Successive calls of `window_toggle` on a 0/1 grid follow the neighbour
    rule, move after move. -/
theorem play_eq (moves : List Int) :
    ∀ (state : List Int) (house : List Char), state.length = 9 →
      (∀ v ∈ state, v = 0 ∨ v = 1) → HOUSE_WIDTH * HOUSE_HEIGHT ≤ house.length →
      (∀ m ∈ moves, 1 ≤ m ∧ m ≤ 9) →
      ∃ house', play state house moves = Except.ok (moves.foldl apply_move state, house') ∧
        house'.length = house.length := by
  induction moves with
  | nil => intro state house _ _ _ _; exact ⟨house, rfl, rfl⟩
  | cons m ms ih =>
    intro state house hlen hbit hh hm
    obtain ⟨h1, hw, hl1⟩ := window_toggle_spec state house m hlen hbit hh
      (hm m (List.mem_cons_self m ms)).1 (hm m (List.mem_cons_self m ms)).2
    obtain ⟨h2, hp, hl2⟩ := ih (apply_move state m) h1 (by rw [apply_move_length, hlen])
      (apply_move_bits state m hbit) (by rw [hl1]; exact hh)
      (fun x hx => hm x (List.mem_cons_of_mem _ hx))
    refine ⟨h2, ?_, by rw [hl2, hl1]⟩
    simp only [play, hw, ok_bind, List.foldl_cons]
    exact hp

theorem apply_move_comm (state : List Int) (a b : Int) :
    apply_move (apply_move state a) b = apply_move (apply_move state b) a := by
  apply List.ext_getElem?
  intro i
  simp only [apply_move_getElem?]
  cases state[i]? with
  | none => rfl
  | some v =>
    simp only [Option.map_some', Option.some.injEq]
    split <;> split <;> rfl

theorem foldl_apply_move_bits (moves : List Int) :
    ∀ state : List Int, (∀ v ∈ state, v = 0 ∨ v = 1) →
      ∀ v ∈ moves.foldl apply_move state, v = 0 ∨ v = 1 := by
  induction moves with
  | nil => intro state h; exact h
  | cons m ms ih => intro state h; exact ih _ (apply_move_bits state m h)

/-- What `window_toggle_state` leaves in the cell it toggles, whatever the
    cell held. -/
theorem window_toggle_state_cell (state : List Int) (x y : Int) (hlen : state.length = 9)
    (hx : 0 ≤ x) (hx2 : x ≤ 2) (hy : 0 ≤ y) (hy2 : y ≤ 2) :
    ∃ state', window_toggle_state state x y = Except.ok state' ∧
      state'[(3*y + x).toNat]? =
        some (if state[(3*y + x).toNat]? = some 1 then 0 else 1) := by
  have hlt : (3*y + x).toNat < state.length := by omega
  refine ⟨_, window_toggle_state_eq state x y (by omega) hlt, ?_⟩
  rw [List.getElem?_set, if_pos rfl, if_pos hlt]

/-! ## Properties of the program -/

/-- C1: for a selection in 1..9 and a grid of nine 0/1 cells, the state
    array `window_toggle` leaves is the one of the uniform neighbour rule
    (`apply_move`): the cell of the selection and its orthogonal neighbours
    inside the grid flipped, every other cell unchanged. -/
theorem window_toggle_neighbour_rule (state : List Int) (house : List Char) (s : Int)
    (hlen : state.length = 9) (hbit : ∀ v ∈ state, v = 0 ∨ v = 1)
    (hh : HOUSE_WIDTH * HOUSE_HEIGHT ≤ house.length) (h1 : 1 ≤ s) (h9 : s ≤ 9) :
    (window_toggle state house s).map Prod.fst = Except.ok (apply_move state s) := by
  obtain ⟨house', hw, _⟩ := window_toggle_spec state house s hlen hbit hh h1 h9
  rw [hw]
  rfl

theorem window_toggle_neighbour_rule_witness :
    (window_toggle initial_state main_house 5).map Prod.fst =
      Except.ok (apply_move initial_state 5) :=
  window_toggle_neighbour_rule initial_state main_house 5 (by decide) (by decide)
    main_house_length (by decide) (by decide)

/-- C2: for a selection in 1..9 and a grid of nine 0/1 cells, calling
    `window_toggle` twice in a row with the same selection leaves the state
    array as it was before the first call. -/
theorem window_toggle_twice (state : List Int) (house : List Char) (s : Int)
    (hlen : state.length = 9) (hbit : ∀ v ∈ state, v = 0 ∨ v = 1)
    (hh : HOUSE_WIDTH * HOUSE_HEIGHT ≤ house.length) (h1 : 1 ≤ s) (h9 : s ≤ 9) :
    (window_toggle state house s >>= fun p => window_toggle p.1 p.2 s).map Prod.fst
      = Except.ok state := by
  obtain ⟨house1, hw1, hl1⟩ := window_toggle_spec state house s hlen hbit hh h1 h9
  obtain ⟨house2, hw2, _⟩ := window_toggle_spec (apply_move state s) house1 s
    (by rw [apply_move_length, hlen]) (apply_move_bits state s hbit) (by rw [hl1]; exact hh)
    h1 h9
  rw [hw1, ok_bind]
  show (window_toggle (apply_move state s) house1 s).map Prod.fst = Except.ok state
  rw [hw2, apply_move_twice]
  rfl

theorem window_toggle_twice_witness :
    (window_toggle initial_state main_house 8 >>= fun p =>
      window_toggle p.1 p.2 8).map Prod.fst = Except.ok initial_state :=
  window_toggle_twice initial_state main_house 8 (by decide) (by decide)
    main_house_length (by decide) (by decide)

/-- C3: on a grid of nine 0/1 cells `window_toggle` changes exactly 3 cells
    for a corner selection (1, 3, 7, 9), exactly 4 for an edge centre
    (2, 4, 6, 8) and exactly 5 for the centre (5). -/
theorem window_toggle_changed_count (state : List Int) (house : List Char) (s : Int)
    (hlen : state.length = 9) (hbit : ∀ v ∈ state, v = 0 ∨ v = 1)
    (hh : HOUSE_WIDTH * HOUSE_HEIGHT ≤ house.length) (h1 : 1 ≤ s) (h9 : s ≤ 9) :
    (window_toggle state house s).map (fun p => changed_cells state p.1) =
      Except.ok (if s = 1 ∨ s = 3 ∨ s = 7 ∨ s = 9 then 3
        else if s = 2 ∨ s = 4 ∨ s = 6 ∨ s = 8 then 4 else 5) := by
  obtain ⟨house', hw, _⟩ := window_toggle_spec state house s hlen hbit hh h1 h9
  rw [hw, ← changed_cells_apply_move state s hlen h1 h9]
  rfl

theorem window_toggle_changed_count_witness :
    (window_toggle initial_state main_house 6).map (fun p => changed_cells initial_state p.1)
      = Except.ok 4 :=
  window_toggle_changed_count initial_state main_house 6 (by decide) (by decide)
    main_house_length (by decide) (by decide)

/-- C4, at the all-off grid: the loop of `solved` runs on to `i = 9` and
    reads `state[9]`, one past the nine cells, instead of returning 1. -/
theorem solved_all_off : solved [0, 0, 0, 0, 0, 0, 0, 0, 0] =
    Except.error (Fault.state_index 9) := by
  decide

/-- C5: for `x`, `y` in 0..2 and a grid of nine 0/1 cells,
    `window_toggle_state` flips the cell at index `3*y + x` (row `y`,
    column `x`) and leaves the other eight cells as they were. -/
theorem window_toggle_state_flips_one (state : List Int) (x y : Int)
    (hlen : state.length = 9) (hbit : ∀ v ∈ state, v = 0 ∨ v = 1)
    (hx : 0 ≤ x) (hx2 : x ≤ 2) (hy : 0 ≤ y) (hy2 : y ≤ 2) :
    ∃ state', window_toggle_state state x y = Except.ok state' ∧ state'.length = 9 ∧
      ∀ i : Nat, i < 9 →
        state'[i]? = if (i : Int) = 3*y + x then state[i]?.map flip_cell else state[i]? := by
  have hlt : (3*y + x).toNat < state.length := by omega
  refine ⟨_, window_toggle_state_eq state x y (by omega) hlt, by simp [hlen], ?_⟩
  intro i hi
  rw [List.getElem?_set]
  by_cases hix : (i : Int) = 3*y + x
  · have hi' : (3*y + x).toNat = i := by omega
    subst hi'
    rw [if_pos rfl, if_pos hlt, if_pos hix, List.getElem?_eq_getElem hlt]
    have hb := hbit _ (List.getElem_mem hlt)
    rcases hb with hb | hb <;> simp [flip_cell, hb]
  · have hi' : ¬ (3*y + x).toNat = i := by omega
    rw [if_neg hi', if_neg hix]

theorem window_toggle_state_flips_one_witness :
    ∃ state', window_toggle_state initial_state 1 2 = Except.ok state' ∧ state'.length = 9 ∧
      ∀ i : Nat, i < 9 →
        state'[i]? = if (i : Int) = 3*2 + 1 then initial_state[i]?.map flip_cell
          else initial_state[i]? :=
  window_toggle_state_flips_one initial_state 1 2 (by decide) (by decide) (by decide)
    (by decide) (by decide) (by decide)

/-- C6: from the initial state `{1,1,0, 1,1,0, 1,0,0}` of `main`,
    `window_toggle` with selection 1 yields `{0,0,0, 0,1,0, 1,0,0}`; the
    cells that change are those of indices 0, 1 and 3, each from 1 to 0. -/
theorem window_toggle_initial_one (house : List Char)
    (hh : HOUSE_WIDTH * HOUSE_HEIGHT ≤ house.length) :
    (window_toggle initial_state house 1).map Prod.fst
        = Except.ok [0, 0, 0, 0, 1, 0, 1, 0, 0] ∧
      (List.range 9).filter
        (fun i => decide (initial_state[i]? ≠ [0, 0, 0, 0, 1, 0, 1, 0, (0 : Int)][i]?))
        = [0, 1, 3] ∧
      [0, 1, 3].map (fun i => (initial_state[i]?, [0, 0, 0, 0, 1, 0, 1, 0, (0 : Int)][i]?))
        = [(some 1, some 0), (some 1, some 0), (some 1, some 0)] := by
  refine ⟨?_, by decide, by decide⟩
  obtain ⟨house', hw, _⟩ := window_toggle_spec initial_state house 1 (by decide)
    (by decide) hh (by decide) (by decide)
  rw [hw]
  show Except.ok (apply_move initial_state 1) = Except.ok [0, 0, 0, 0, 1, 0, 1, 0, 0]
  decide

theorem window_toggle_initial_one_witness :
    (window_toggle initial_state main_house 1).map Prod.fst
        = Except.ok [0, 0, 0, 0, 1, 0, 1, 0, 0] ∧
      (List.range 9).filter
        (fun i => decide (initial_state[i]? ≠ [0, 0, 0, 0, 1, 0, 1, 0, (0 : Int)][i]?))
        = [0, 1, 3] ∧
      [0, 1, 3].map (fun i => (initial_state[i]?, [0, 0, 0, 0, 1, 0, 1, 0, (0 : Int)][i]?))
        = [(some 1, some 0), (some 1, some 0), (some 1, some 0)] :=
  window_toggle_initial_one main_house main_house_length

/-- C7: for the initial state `{1,1,0, 1,1,0, 1,0,0}` of `main`, `solved`
    returns 0. -/
theorem solved_initial_state : solved initial_state = Except.ok 0 := by
  decide

/-- C8, at the initial state of `main` and the window in column 2, row 0
    (window 3): `window_update_graphics` fills it with `#`, the glyph of
    `state[3*2 + 0]`, while the cell of that window, `state[3*0 + 2]`, is 0. -/
theorem window_update_graphics_window_three :
    ∃ house', window_update_graphics main_house initial_state 2 0 = Except.ok house' ∧
      window_interior house' 2 0 = List.replicate 33 (some '#') ∧
      initial_state[3*0 + 2]? = some 0 := by
  obtain ⟨house', h1, _, h3⟩ := window_update_graphics_interior main_house initial_state
    2 0 2 0 rfl rfl (by decide) (by decide) (by decide) main_house_length
  exact ⟨house', h1, h3, rfl⟩

/-- C9, at the first frame of the game: after `house_init` on the initial
    state the house is not a projection of the grid (window 3 is filled
    with `#` while `state[2]` is 0). -/
theorem house_init_not_projection :
    ∃ house', house_init main_house initial_state = Except.ok house' ∧
      ¬ shows_grid house' initial_state := by
  obtain ⟨house', h1, _, h3⟩ := house_init_interior main_house initial_state
    2 0 (by decide) (by decide) (by decide) main_house_length
  refine ⟨house', h1, fun hshow => ?_⟩
  have h := hshow 3 (by decide) (by decide)
  rw [show (3 - 1) % 3 = 2 from rfl, show (3 - 1) / 3 = 0 from rfl, h3] at h
  revert h
  decide

/-- C10: in an iteration of the game loop on a grid of nine cells that is
    not solved, when the key read is `0` the loop ends in `Quit` and the
    state array (and the house buffer) is what it was before the key was
    read. -/
theorem quit_key_keeps_state (g : Game) (rest : List Int)
    (hlen : g.state.length = 9) (hon : ∃ v ∈ g.state, v ≠ 0)
    (hh : HOUSE_WIDTH * HOUSE_HEIGHT ≤ g.house.length)
    (hkey : g.input = ('0'.toNat : Int) :: rest) :
    ∃ g', game_iteration g = Except.ok (Phase.Quit, g') ∧
      (∀ fuel, game_loop (fuel + 1) g = Except.ok (Phase.Quit, g')) ∧
      g'.state = g.state ∧ g'.house = g.house := by
  have hit : game_iteration g = Except.ok (Phase.Quit,
      { g with input := rest,
               output := g.output ++ frame_text g.house ++
                 ["Choose a Window (0 to exit): "] ++ ["\n"] }) := by
    simp [game_iteration, house_display_eq g.house g.output hh,
      solved_not_all_off g.state hlen hon, get_keypress, hkey]
  refine ⟨_, hit, fun fuel => ?_, rfl, rfl⟩
  simp [game_loop, hit]

theorem quit_key_keeps_state_witness :
    ∃ g', game_iteration ⟨initial_state, main_house, [48], []⟩
        = Except.ok (Phase.Quit, g') ∧
      (∀ fuel, game_loop (fuel + 1) ⟨initial_state, main_house, [48], []⟩
        = Except.ok (Phase.Quit, g')) ∧
      g'.state = initial_state ∧ g'.house = main_house :=
  quit_key_keeps_state ⟨initial_state, main_house, [48], []⟩ [] (by decide)
    ⟨1, by decide, by decide⟩ main_house_length rfl

/-- C11: in an iteration of the game loop on an unsolved grid, a key that
    is not one of `'0'..'9'` (the end of input included) leaves the state
    array and the house buffer unchanged, the loop goes on to the next
    iteration in `Playing`, and the iteration prints "INVALID SELECTION!"
    exactly once. -/
theorem invalid_key_rejected (g : Game)
    (hlen : g.state.length = 9) (hon : ∃ v ∈ g.state, v ≠ 0)
    (hh : HOUSE_WIDTH * HOUSE_HEIGHT ≤ g.house.length)
    (hkey : (get_keypress g).1 < ('0'.toNat : Int) ∨
      (get_keypress g).1 > ('9'.toNat : Int)) :
    ∃ g', game_iteration g = Except.ok (Phase.Playing, g') ∧
      (∀ fuel, game_loop (fuel + 1) g = game_loop fuel g') ∧
      g'.state = g.state ∧ g'.house = g.house ∧ g'.input = g.input.tail ∧
      g'.output = g.output ++ frame_text g.house ++
        ["Choose a Window (0 to exit): ", "\n", "INVALID SELECTION!\n"] ∧
      (g'.output.drop g.output.length).count "INVALID SELECTION!\n" = 1 := by
  have hit := game_iteration_invalid g hlen hon hh hkey
  refine ⟨_, hit, fun fuel => ?_, rfl, rfl, rfl, rfl, ?_⟩
  · simp [game_loop, hit]
  · simp only [List.append_assoc, List.drop_left, List.count_append,
      List.count_eq_zero_of_not_mem (invalid_not_in_frame g.house)]
    decide

theorem invalid_key_rejected_witness :
    ∃ g', game_iteration ⟨initial_state, main_house, [97, 49], []⟩
        = Except.ok (Phase.Playing, g') ∧
      (∀ fuel, game_loop (fuel + 1) ⟨initial_state, main_house, [97, 49], []⟩
        = game_loop fuel g') ∧
      g'.state = initial_state ∧ g'.house = main_house ∧ g'.input = [49] ∧
      g'.output = [] ++ frame_text main_house ++
        ["Choose a Window (0 to exit): ", "\n", "INVALID SELECTION!\n"] ∧
      (g'.output.drop 0).count "INVALID SELECTION!\n" = 1 :=
  invalid_key_rejected ⟨initial_state, main_house, [97, 49], []⟩ (by decide)
    ⟨1, by decide, by decide⟩ main_house_length (Or.inr (by decide))

/-- C12: in an iteration of the game loop on an unsolved grid of nine
    cells, a key `c` in `'1'..'9'` makes the loop call `window_toggle` once,
    with selection `c - '0'`: the call succeeds, its arrays are the arrays
    of the next iteration, the loop goes on in `Playing`, and the iteration
    prints no "INVALID SELECTION!". -/
theorem digit_key_applies_move (g : Game) (c : Int) (rest : List Int)
    (hlen : g.state.length = 9) (hon : ∃ v ∈ g.state, v ≠ 0)
    (hh : HOUSE_WIDTH * HOUSE_HEIGHT ≤ g.house.length)
    (hkey : g.input = c :: rest) (h1 : ('1'.toNat : Int) ≤ c) (h9 : c ≤ ('9'.toNat : Int)) :
    ∃ state' house' out',
      window_toggle g.state g.house (c - ('0'.toNat : Int)) = Except.ok (state', house') ∧
      game_iteration g = Except.ok (Phase.Playing, ⟨state', house', rest, out'⟩) ∧
      (∀ fuel, game_loop (fuel + 1) g = game_loop fuel ⟨state', house', rest, out'⟩) ∧
      out' = g.output ++ frame_text g.house ++ ["Choose a Window (0 to exit): ", "\n"] ∧
      (out'.drop g.output.length).count "INVALID SELECTION!\n" = 0 := by
  have h1' : (49 : Int) ≤ c := h1
  have h9' : c ≤ (57 : Int) := h9
  obtain ⟨house', hw, _⟩ := window_toggle_any g.state g.house (c - ('0'.toNat : Int)) hlen hh
    (by simp only [Char.reduceToNat, Nat.cast_ofNat]; omega)
    (by simp only [Char.reduceToNat, Nat.cast_ofNat]; omega)
  have hit := game_iteration_digit g c rest hlen hon hh hkey h1 h9
  rw [hw] at hit
  refine ⟨_, house', _, hw, hit, fun fuel => ?_, rfl, ?_⟩
  · simp [game_loop, hit, Except.map]
  · simp only [List.append_assoc, List.drop_left, List.count_append,
      List.count_eq_zero_of_not_mem (invalid_not_in_frame g.house)]
    decide

theorem digit_key_applies_move_witness :
    ∃ state' house' out',
      window_toggle initial_state main_house (52 - ('0'.toNat : Int))
        = Except.ok (state', house') ∧
      game_iteration ⟨initial_state, main_house, [52, 48], []⟩
        = Except.ok (Phase.Playing, ⟨state', house', [48], out'⟩) ∧
      (∀ fuel, game_loop (fuel + 1) ⟨initial_state, main_house, [52, 48], []⟩
        = game_loop fuel ⟨state', house', [48], out'⟩) ∧
      out' = [] ++ frame_text main_house ++ ["Choose a Window (0 to exit): ", "\n"] ∧
      (out'.drop 0).count "INVALID SELECTION!\n" = 0 :=
  digit_key_applies_move ⟨initial_state, main_house, [52, 48], []⟩ 52 [48] (by decide)
    ⟨1, by decide, by decide⟩ main_house_length rfl (by decide) (by decide)

/-- C13, at the game `4, 5, 7, 8, 9` played from the start of `main`: the
    fifth move turns the last light off, and the iteration that follows
    does not end the loop in `Won`: the win check reads `state[9]`, past the
    nine cells. -/
theorem main_solved_game_reads_past_end :
    main 6 [52, 53, 55, 56, 57] = Except.error (Fault.state_index 9) := by
  obtain ⟨h0, hinit, hl0⟩ : ∃ h0, house_init main_house initial_state = Except.ok h0 ∧
      HOUSE_WIDTH * HOUSE_HEIGHT ≤ h0.length :=
    ⟨_, house_init_eq main_house initial_state (by decide) main_house_length,
      by simp only [paint_length]; exact main_house_length⟩
  obtain ⟨h1, hl1, e1⟩ := game_loop_digit_step initial_state h0 52 [53, 55, 56, 57] [] 5
    (by decide) (by decide) ⟨1, by decide, by decide⟩ hl0 (by decide) (by decide)
  rw [show apply_move initial_state (52 - 48) = [0, 1, 0, 0, 0, 0, 0, 0, 0] by decide] at e1
  obtain ⟨h2, hl2, e2⟩ := game_loop_digit_step [0, 1, 0, 0, 0, 0, 0, 0, 0] h1 53 [55, 56, 57]
    ([] ++ frame_text h0 ++ ["Choose a Window (0 to exit): ", "\n"]) 4
    (by decide) (by decide) ⟨1, by decide, by decide⟩ hl1 (by decide) (by decide)
  rw [show apply_move [0, 1, 0, 0, 0, 0, 0, 0, 0] (53 - 48) = [0, 0, 0, 1, 1, 1, 0, 1, 0]
    by decide] at e2
  obtain ⟨h3, hl3, e3⟩ := game_loop_digit_step [0, 0, 0, 1, 1, 1, 0, 1, 0] h2 55 [56, 57]
    ([] ++ frame_text h0 ++ ["Choose a Window (0 to exit): ", "\n"] ++ frame_text h1 ++
      ["Choose a Window (0 to exit): ", "\n"]) 3
    (by decide) (by decide) ⟨1, by decide, by decide⟩ hl2 (by decide) (by decide)
  rw [show apply_move [0, 0, 0, 1, 1, 1, 0, 1, 0] (55 - 48) = [0, 0, 0, 0, 1, 1, 1, 0, 0]
    by decide] at e3
  obtain ⟨h4, hl4, e4⟩ := game_loop_digit_step [0, 0, 0, 0, 1, 1, 1, 0, 0] h3 56 [57]
    ([] ++ frame_text h0 ++ ["Choose a Window (0 to exit): ", "\n"] ++ frame_text h1 ++
      ["Choose a Window (0 to exit): ", "\n"] ++ frame_text h2 ++
      ["Choose a Window (0 to exit): ", "\n"]) 2
    (by decide) (by decide) ⟨1, by decide, by decide⟩ hl3 (by decide) (by decide)
  rw [show apply_move [0, 0, 0, 0, 1, 1, 1, 0, 0] (56 - 48) = [0, 0, 0, 0, 0, 1, 0, 1, 1]
    by decide] at e4
  obtain ⟨h5, hl5, e5⟩ := game_loop_digit_step [0, 0, 0, 0, 0, 1, 0, 1, 1] h4 57 []
    ([] ++ frame_text h0 ++ ["Choose a Window (0 to exit): ", "\n"] ++ frame_text h1 ++
      ["Choose a Window (0 to exit): ", "\n"] ++ frame_text h2 ++
      ["Choose a Window (0 to exit): ", "\n"] ++ frame_text h3 ++
      ["Choose a Window (0 to exit): ", "\n"]) 1
    (by decide) (by decide) ⟨1, by decide, by decide⟩ hl4 (by decide) (by decide)
  rw [show apply_move [0, 0, 0, 0, 0, 1, 0, 1, 1] (57 - 48) = [0, 0, 0, 0, 0, 0, 0, 0, 0]
    by decide] at e5
  have e6 : ∀ out, game_iteration ⟨[0, 0, 0, 0, 0, 0, 0, 0, 0], h5, [], out⟩
      = Except.error (Fault.state_index 9) :=
    fun out => game_iteration_all_off ⟨[0, 0, 0, 0, 0, 0, 0, 0, 0], h5, [], out⟩
      rfl (by simp) hl5
  simp only [main, hinit, ok_bind]
  rw [e1, e2, e3, e4, e5]
  simp only [game_loop, e6, error_bind]

/-- C14: for a selection in 1..9, an array of nine cells and the house
    buffer, `window_toggle` runs to its end without an access outside the
    arrays: every `state[3*y+x]` it toggles and every `state[3*x+y]` it reads
    for the graphics has its index in 0..8 (an index outside would end the
    call with `Fault.state_index`). -/
theorem window_toggle_in_bounds (state : List Int) (house : List Char) (s : Int)
    (hlen : state.length = 9)
    (hh : HOUSE_WIDTH * HOUSE_HEIGHT ≤ house.length) (h1 : 1 ≤ s) (h9 : s ≤ 9) :
    (∃ state' house', window_toggle state house s = Except.ok (state', house') ∧
      state'.length = 9 ∧ house'.length = house.length) ∧
    ∀ i, window_toggle state house s ≠ Except.error (Fault.state_index i) := by
  obtain ⟨house', hw, hl⟩ := window_toggle_any state house s hlen hh h1 h9
  refine ⟨⟨_, house', hw, by rw [toggle_move_length, hlen], hl⟩, fun i => ?_⟩
  rw [hw]
  exact fun h => by cases h

theorem window_toggle_in_bounds_witness :
    (∃ state' house', window_toggle [7, 0, -3, 1, 1, 0, 2, 0, 0] main_house 9
        = Except.ok (state', house') ∧
      state'.length = 9 ∧ house'.length = main_house.length) ∧
    ∀ i, window_toggle [7, 0, -3, 1, 1, 0, 2, 0, 0] main_house 9
      ≠ Except.error (Fault.state_index i) :=
  window_toggle_in_bounds [7, 0, -3, 1, 1, 0, 2, 0, 0] main_house 9 (by decide)
    main_house_length (by decide) (by decide)

/-- C15: on an array of nine cells `solved` reads `state[9]`, one past the
    last cell, exactly when the nine cells are all 0; when the first cell
    that is not 0 is at index `i`, it returns 0 there, having read nothing
    after index `i` (it returns 0 already on the array cut after that
    cell). -/
theorem solved_reads_past_end_iff (state : List Int) (hlen : state.length = 9) :
    (solved state = Except.error (Fault.state_index 9) ↔ ∀ v ∈ state, v = 0) ∧
    (∀ (i : Nat) (v : Int), state[i]? = some v → v ≠ 0 →
      (∀ j, j < i → state[j]? = some 0) →
        solved state = Except.ok 0 ∧ solved (state.take (i + 1)) = Except.ok 0) := by
  constructor
  · constructor
    · intro h v hv
      by_contra hv0
      rw [solved_not_all_off state hlen ⟨v, hv, hv0⟩] at h
      exact absurd h (by decide)
    · exact solved_all_zero state hlen
  · intro i v hv hv0 hz
    have hi : i < state.length := by
      by_contra hi
      rw [List.getElem?_eq_none (not_lt.1 hi)] at hv
      exact absurd hv (by simp)
    refine ⟨solved_loop_first_on state i v hv hv0 10 0 (by omega) (by omega)
      (fun j _ hj => hz j hj), ?_⟩
    refine solved_loop_first_on (state.take (i + 1)) i v ?_ hv0 10 0 (by omega) (by omega)
      (fun j _ hj => ?_)
    · rw [List.getElem?_take_of_lt (by omega)]
      exact hv
    · rw [List.getElem?_take_of_lt (by omega)]
      exact hz j hj

theorem solved_reads_past_end_iff_witness :
    (solved initial_state = Except.error (Fault.state_index 9) ↔
      ∀ v ∈ initial_state, v = 0) ∧
    (∀ (i : Nat) (v : Int), initial_state[i]? = some v → v ≠ 0 →
      (∀ j, j < i → initial_state[j]? = some 0) →
        solved initial_state = Except.ok 0 ∧
          solved (initial_state.take (i + 1)) = Except.ok 0) :=
  solved_reads_past_end_iff initial_state (by decide)

/-- C16: for `x`, `y` in 0..2 and an array of nine cells,
    `window_update_graphics` writes one character, `#` or a blank, to each
    of the 33 offsets of the interior of the window in column `x`, row `y`
    (rows `8+6y .. 10+6y`, columns `11+18x .. 21+18x`, offset
    `69*row + column`), all of them inside the 69*26 characters of the
    house, and leaves every other character of the buffer as it was. -/
theorem window_update_graphics_frame (house : List Char) (state : List Int) (x y : Int)
    (hx : 0 ≤ x) (hx2 : x ≤ 2) (hy : 0 ≤ y) (hy2 : y ≤ 2)
    (hs : state.length = 9) (hh : HOUSE_WIDTH * HOUSE_HEIGHT ≤ house.length) :
    ∃ house' c, (c = '#' ∨ c = ' ') ∧
      window_update_graphics house state x y = Except.ok house' ∧
      house'.length = house.length ∧
      (window_offsets x.toNat y.toNat).length = WINDOW_WIDTH * WINDOW_HEIGHT ∧
      (window_offsets x.toNat y.toNat).Nodup ∧
      (∀ k ∈ window_offsets x.toNat y.toNat,
        k < HOUSE_WIDTH * HOUSE_HEIGHT ∧ house'[k]? = some c) ∧
      (∀ k, k ∉ window_offsets x.toNat y.toNat → house'[k]? = house[k]?) := by
  have hh' : 1794 ≤ house.length := hh
  refine ⟨_, if state[(3*x + y).toNat]? = some 1 then '#' else ' ', ?_,
    window_update_graphics_eq house state x y hx hx2 hy hy2 (by omega) hh,
    paint_length _ _ _ _, window_offsets_length _ _,
    window_offsets_nodup _ _ (by omega) (by omega), ?_, ?_⟩
  · split
    · exact Or.inl rfl
    · exact Or.inr rfl
  · intro k hk
    have hk' := hk
    rw [mem_window_offsets] at hk'
    obtain ⟨r, hr, c, hc, rfl⟩ := hk'
    have hlt : 69 * (8 + 6*y.toNat + r) + (11 + 18*x.toNat + c) < 1794 := by omega
    refine ⟨hlt, ?_⟩
    have hget : house[69 * (8 + 6*y.toNat + r) + (11 + 18*x.toNat + c)]?
        = some house[69 * (8 + 6*y.toNat + r) + (11 + 18*x.toNat + c)] :=
      List.getElem?_eq_getElem (by omega)
    rw [paint_getElem? house x y _ _ hx hx2 hy,
      if_pos ((mem_window_offsets_iff x y _ hx hx2 hy).1 hk), hget]
    rfl
  · intro k hk
    rw [paint_getElem? house x y _ _ hx hx2 hy,
      if_neg (fun h => hk ((mem_window_offsets_iff x y _ hx hx2 hy).2 h))]

theorem window_update_graphics_frame_witness :
    ∃ house' c, (c = '#' ∨ c = ' ') ∧
      window_update_graphics main_house initial_state 1 2 = Except.ok house' ∧
      house'.length = main_house.length ∧
      (window_offsets (1 : Int).toNat (2 : Int).toNat).length
        = WINDOW_WIDTH * WINDOW_HEIGHT ∧
      (window_offsets (1 : Int).toNat (2 : Int).toNat).Nodup ∧
      (∀ k ∈ window_offsets (1 : Int).toNat (2 : Int).toNat,
        k < HOUSE_WIDTH * HOUSE_HEIGHT ∧ house'[k]? = some c) ∧
      (∀ k, k ∉ window_offsets (1 : Int).toNat (2 : Int).toNat →
        house'[k]? = main_house[k]?) :=
  window_update_graphics_frame main_house initial_state 1 2 (by decide) (by decide)
    (by decide) (by decide) (by decide) main_house_length

/-- C17: from every grid of nine 0/1 cells some sequence of at most 9
    selections in 1..9, applied in turn by `window_toggle`, leaves all nine
    cells 0; from the initial state of `main` the selections 4, 5, 7, 8, 9
    do. -/
theorem every_grid_winnable (state : List Int) (house : List Char)
    (hlen : state.length = 9) (hbit : ∀ v ∈ state, v = 0 ∨ v = 1)
    (hh : HOUSE_WIDTH * HOUSE_HEIGHT ≤ house.length) :
    (∃ moves : List Int, moves.length ≤ 9 ∧ (∀ m ∈ moves, 1 ≤ m ∧ m ≤ 9) ∧
      (play state house moves).map Prod.fst = Except.ok [0, 0, 0, 0, 0, 0, 0, 0, 0]) ∧
    (play initial_state house [4, 5, 7, 8, 9]).map Prod.fst
      = Except.ok [0, 0, 0, 0, 0, 0, 0, 0, 0] := by
  constructor
  · obtain ⟨house', hp, _⟩ := play_eq (solve state) state house hlen hbit hh
      (solve_range state)
    refine ⟨solve state, solve_length state, solve_range state, ?_⟩
    rw [hp, solve_correct state hlen hbit]
    rfl
  · obtain ⟨house', hp, _⟩ := play_eq [4, 5, 7, 8, 9] initial_state house (by decide)
      (by decide) hh (by decide)
    rw [hp]
    show Except.ok (List.foldl apply_move initial_state [4, 5, 7, 8, 9]) = _
    decide

theorem every_grid_winnable_witness :
    (∃ moves : List Int, moves.length ≤ 9 ∧ (∀ m ∈ moves, 1 ≤ m ∧ m ≤ 9) ∧
      (play [1, 0, 1, 0, 1, 0, 1, 0, 1] main_house moves).map Prod.fst
        = Except.ok [0, 0, 0, 0, 0, 0, 0, 0, 0]) ∧
    (play initial_state main_house [4, 5, 7, 8, 9]).map Prod.fst
      = Except.ok [0, 0, 0, 0, 0, 0, 0, 0, 0] :=
  every_grid_winnable [1, 0, 1, 0, 1, 0, 1, 0, 1] main_house (by decide) (by decide)
    main_house_length

/-- C18: for two selections `a`, `b` in 1..9 and a grid of nine 0/1 cells,
    `window_toggle` with `a` then `b` leaves the same state array as with
    `b` then `a`. -/
theorem window_toggle_commute (state : List Int) (house : List Char) (a b : Int)
    (hlen : state.length = 9) (hbit : ∀ v ∈ state, v = 0 ∨ v = 1)
    (hh : HOUSE_WIDTH * HOUSE_HEIGHT ≤ house.length)
    (ha1 : 1 ≤ a) (ha9 : a ≤ 9) (hb1 : 1 ≤ b) (hb9 : b ≤ 9) :
    (window_toggle state house a >>= fun p => window_toggle p.1 p.2 b).map Prod.fst
      = (window_toggle state house b >>= fun p => window_toggle p.1 p.2 a).map Prod.fst ∧
    (window_toggle state house a >>= fun p => window_toggle p.1 p.2 b).map Prod.fst
      = Except.ok (apply_move (apply_move state a) b) := by
  obtain ⟨ha, hwa, hla⟩ := window_toggle_spec state house a hlen hbit hh ha1 ha9
  obtain ⟨hb, hwb, hlb⟩ := window_toggle_spec state house b hlen hbit hh hb1 hb9
  obtain ⟨hab, hwab, _⟩ := window_toggle_spec (apply_move state a) ha b
    (by rw [apply_move_length, hlen]) (apply_move_bits state a hbit) (by rw [hla]; exact hh)
    hb1 hb9
  obtain ⟨hba, hwba, _⟩ := window_toggle_spec (apply_move state b) hb a
    (by rw [apply_move_length, hlen]) (apply_move_bits state b hbit) (by rw [hlb]; exact hh)
    ha1 ha9
  simp only [hwa, hwb, ok_bind, hwab, hwba, Except.map, apply_move_comm state a b,
    and_self]

theorem window_toggle_commute_witness :
    (window_toggle initial_state main_house 2 >>= fun p =>
        window_toggle p.1 p.2 6).map Prod.fst
      = (window_toggle initial_state main_house 6 >>= fun p =>
        window_toggle p.1 p.2 2).map Prod.fst ∧
    (window_toggle initial_state main_house 2 >>= fun p =>
        window_toggle p.1 p.2 6).map Prod.fst
      = Except.ok (apply_move (apply_move initial_state 2) 6) :=
  window_toggle_commute initial_state main_house 2 6 (by decide) (by decide)
    main_house_length (by decide) (by decide) (by decide) (by decide)

/-- C19: every cell of the state array is 0 or 1 throughout a game.  The
    initial state is a 0/1 grid; `window_toggle` with a selection in 1..9
    leaves a 0/1 grid when given one; so does every sequence of such
    selections played from the initial state; and `window_toggle_state`
    turns a cell that holds anything but 1 into 1 (and a 1 into 0), so the
    cell it toggles is 0 or 1 afterwards. -/
theorem cells_stay_bits (state : List Int) (house : List Char) (s x y : Int)
    (hlen : state.length = 9) (hbit : ∀ v ∈ state, v = 0 ∨ v = 1)
    (hh : HOUSE_WIDTH * HOUSE_HEIGHT ≤ house.length) (h1 : 1 ≤ s) (h9 : s ≤ 9)
    (hx : 0 ≤ x) (hx2 : x ≤ 2) (hy : 0 ≤ y) (hy2 : y ≤ 2) :
    (∀ v ∈ initial_state, v = 0 ∨ v = 1) ∧
    (∃ state' house', window_toggle state house s = Except.ok (state', house') ∧
      ∀ v ∈ state', v = 0 ∨ v = 1) ∧
    (∀ moves : List Int, (∀ m ∈ moves, 1 ≤ m ∧ m ≤ 9) →
      ∃ state' house', play initial_state house moves = Except.ok (state', house') ∧
        ∀ v ∈ state', v = 0 ∨ v = 1) ∧
    (∀ cells : List Int, cells.length = 9 →
      ∃ cells', window_toggle_state cells x y = Except.ok cells' ∧
        (cells[(3*y + x).toNat]? ≠ some 1 → cells'[(3*y + x).toNat]? = some 1) ∧
        (cells[(3*y + x).toNat]? = some 1 → cells'[(3*y + x).toNat]? = some 0) ∧
        (cells'[(3*y + x).toNat]? = some 0 ∨ cells'[(3*y + x).toNat]? = some 1)) := by
  refine ⟨by decide, ?_, ?_, ?_⟩
  · obtain ⟨house', hw, _⟩ := window_toggle_spec state house s hlen hbit hh h1 h9
    exact ⟨_, house', hw, apply_move_bits state s hbit⟩
  · intro moves hm
    obtain ⟨house', hp, _⟩ := play_eq moves initial_state house (by decide) (by decide) hh hm
    exact ⟨_, house', hp, foldl_apply_move_bits moves initial_state (by decide)⟩
  · intro cells hc
    obtain ⟨cells', hw, hcell⟩ := window_toggle_state_cell cells x y hc hx hx2 hy hy2
    refine ⟨cells', hw, fun h => ?_, fun h => ?_, ?_⟩
    · rw [hcell, if_neg h]
    · rw [hcell, if_pos h]
    · rw [hcell]
      split
      · exact Or.inl rfl
      · exact Or.inr rfl

theorem cells_stay_bits_witness :
    (∀ v ∈ initial_state, v = 0 ∨ v = 1) ∧
    (∃ state' house', window_toggle initial_state main_house 3
        = Except.ok (state', house') ∧
      ∀ v ∈ state', v = 0 ∨ v = 1) ∧
    (∀ moves : List Int, (∀ m ∈ moves, 1 ≤ m ∧ m ≤ 9) →
      ∃ state' house', play initial_state main_house moves = Except.ok (state', house') ∧
        ∀ v ∈ state', v = 0 ∨ v = 1) ∧
    (∀ cells : List Int, cells.length = 9 →
      ∃ cells', window_toggle_state cells 2 1 = Except.ok cells' ∧
        (cells[(3*1 + 2 : Int).toNat]? ≠ some 1 → cells'[(3*1 + 2 : Int).toNat]? = some 1) ∧
        (cells[(3*1 + 2 : Int).toNat]? = some 1 → cells'[(3*1 + 2 : Int).toNat]? = some 0) ∧
        (cells'[(3*1 + 2 : Int).toNat]? = some 0 ∨
          cells'[(3*1 + 2 : Int).toNat]? = some 1)) :=
  cells_stay_bits initial_state main_house 3 2 1 (by decide) (by decide)
    main_house_length (by decide) (by decide) (by decide) (by decide) (by decide)
    (by decide)

end LightsOut
